import Mathlib

/-!
Verification development for the AIC-Choco-Max SFU control plane.

Shallow embedding of the signaling server (`src/index.js`, class `SFUServer`)
and the camera ingest supervisor (`src/rtsp-bridge.js`, class `RTSPBridge`).
JavaScript `Map` objects are modelled as association lists with JS `Map`
semantics (`set` replaces in place, `delete` removes, `get` finds the first
entry); JS object aliasing (the same peer object stored in `room.peers` and
`this.peers`) is modelled with an explicit object arena keyed by numeric
handles.  Fresh handles (routers, transports, producers, consumers, timers,
subprocesses) are drawn from a counter; side effects on external resources
(closing, killing, clearing timers) are recorded in explicit logs.
-/

set_option maxHeartbeats 1000000

namespace ChocoMax

/-! ### Association-list maps with JS Map semantics -/

def mapGet {K V : Type} [DecidableEq K] : List (K × V) → K → Option V
  | [], _ => none
  | (k', v') :: r, k => if k' = k then some v' else mapGet r k

def mapSet {K V : Type} [DecidableEq K] : List (K × V) → K → V → List (K × V)
  | [], k, v => [(k, v)]
  | (k', v') :: r, k, v => if k' = k then (k, v) :: r else (k', v') :: mapSet r k v

def mapDelete {K V : Type} [DecidableEq K] : List (K × V) → K → List (K × V)
  | [], _ => []
  | (k', v') :: r, k => if k' = k then mapDelete r k else (k', v') :: mapDelete r k

theorem mapGet_mapSet_self {K V : Type} [DecidableEq K]
    (m : List (K × V)) (k : K) (v : V) : mapGet (mapSet m k v) k = some v := by
  induction m with
  | nil => simp [mapGet, mapSet]
  | cons hd tl ih =>
      obtain ⟨k', v'⟩ := hd
      by_cases h : k' = k <;> simp [mapGet, mapSet, h, ih]

theorem mapGet_mapSet_ne {K V : Type} [DecidableEq K]
    (m : List (K × V)) (k k' : K) (v : V) (h : k' ≠ k) :
    mapGet (mapSet m k v) k' = mapGet m k' := by
  have h2 : ¬(k = k') := fun e => h e.symm
  induction m with
  | nil => simp [mapGet, mapSet, h2]
  | cons hd tl ih =>
      obtain ⟨k0, v0⟩ := hd
      by_cases h0 : k0 = k
      · subst h0
        simp [mapGet, mapSet, h2]
      · simp [mapGet, mapSet, h0, ih]

theorem mapGet_mapDelete_self {K V : Type} [DecidableEq K]
    (m : List (K × V)) (k : K) : mapGet (mapDelete m k) k = none := by
  induction m with
  | nil => simp [mapGet, mapDelete]
  | cons hd tl ih =>
      obtain ⟨k', v'⟩ := hd
      by_cases h : k' = k <;> simp [mapGet, mapDelete, h, ih]

theorem mapGet_mapDelete_ne {K V : Type} [DecidableEq K]
    (m : List (K × V)) (k k' : K) (h : k' ≠ k) :
    mapGet (mapDelete m k) k' = mapGet m k' := by
  have h2 : ¬(k = k') := fun e => h e.symm
  induction m with
  | nil => simp [mapDelete]
  | cons hd tl ih =>
      obtain ⟨k0, v0⟩ := hd
      by_cases h0 : k0 = k
      · subst h0
        simp [mapGet, mapDelete, h2, ih]
      · simp [mapGet, mapDelete, h0, ih]

theorem mapSet_ne_nil {K V : Type} [DecidableEq K]
    (m : List (K × V)) (k : K) (v : V) : mapSet m k v ≠ [] := by
  cases m with
  | nil => simp [mapSet]
  | cons hd tl =>
      obtain ⟨k', v'⟩ := hd
      by_cases h : k' = k <;> simp [mapSet, h]

/-! ### Data model (mirrors the JS objects of `SFUServer` and `RTSPBridge`) -/

/-- One peer object, as built in `handleJoinRoom`:
`{ id, socket, transports, producers, consumers }`.  The three maps are keyed
by the resource id which is also the only datum we track, so they are id
lists in insertion order. -/
structure PeerObj where
  pid : String
  sockId : String
  transports : List Nat := []
  producers : List Nat := []
  consumers : List Nat := []
  deriving DecidableEq

/-- One room, as built in `handleJoinRoom`:
`{ router, peers, producers }`.  `peers` maps peerId to the handle of the
shared peer object; `producers` is the id list in insertion order. -/
structure Room where
  router : Nat
  peers : List (String × Nat) := []
  producers : List Nat := []
  deriving DecidableEq

/-- The fields `socket.roomId` / `socket.peerId` assigned in `handleJoinRoom`
(undefined before the first join). -/
structure SocketData where
  roomId : Option String := none
  peerId : Option String := none
  deriving DecidableEq

/-- Per-camera mutable state object kept in `RTSPBridge.routers`
(`state.retryTimer`, `state.videoTransport`, `state.audioTransport`,
`state.ffmpeg`, `state.videoProducer`, `state.audioProducer`). -/
structure CamState where
  retryTimer : Option Nat := none
  videoTransport : Option Nat := none
  audioTransport : Option Nat := none
  ffmpegProc : Option Nat := none
  videoProducer : Option Nat := none
  audioProducer : Option Nat := none
  deriving DecidableEq

/-- Bridge instance state (`RTSPBridge`): `isRunning`, `mainRouter`,
`ffmpegProcesses` (cameraId to subprocess handle), `routers` (cameraId to
per-camera state object) and `producers` (keys `camNN_video` / `camNN_audio`
to producer handles). -/
structure BridgeState where
  isRunning : Bool := false
  mainRouter : Option Nat := none
  ffmpegProcesses : List (String × Nat) := []
  routers : List (String × CamState) := []
  producers : List (String × Nat) := []
  deriving DecidableEq

/-- Whole-system state: the `SFUServer` maps (`rooms`, `peers` keyed by
socket id), the socket fields, the peer-object arena, the bridge, a fresh
handle counter, and effect logs for closed / killed / cleared resources. -/
structure SFU where
  rooms : List (String × Room) := []
  peers : List (String × Nat) := []
  peerObjs : List (Nat × PeerObj) := []
  sockets : List (String × SocketData) := []
  bridge : BridgeState := {}
  nextId : Nat := 0
  closedRouters : List Nat := []
  closedTransports : List Nat := []
  closedProducers : List Nat := []
  closedConsumers : List Nat := []
  clearedTimers : List Nat := []
  killedSignals : List (Nat × String) := []
  deriving DecidableEq

/-- The empty registry: a freshly constructed server with no rooms, peers or
bridge activity. -/
def initSFU : SFU := {}

/-- Draw a fresh resource handle. -/
def fresh (s : SFU) : Nat × SFU := (s.nextId, {s with nextId := s.nextId + 1})

/-- Socket events emitted by the handlers (`socket.emit` / `socket.to`). -/
inductive Event where
  | routerRtpCaps (toSock : String) (router : Nat)
  | existingProducers (toSock : String) (producerIds : List Nat)
  | webrtcTransportCreated (toSock : String) (transportId : Nat)
  | producerCreated (toSock : String) (producerId : Nat)
  | newProducer (roomId : String) (exceptSock : String) (producerId : Nat) (peerId : String)
  | consumerCreated (toSock : String) (consumerId : Nat) (producerId : Nat)
  | errorMsg (toSock : String) (msg : String)
  deriving DecidableEq

/-! ### Signaling handlers (`SFUServer`, src/index.js) -/

/-- Handler `handleJoinRoom(socket, { roomId, peerId })`: create the room if absent
(with a fresh router and empty peer/producer maps), build a fresh peer object
with empty maps, register it under `peerId` in the room and under the socket
id in `this.peers`, record `socket.roomId` / `socket.peerId`, emit the router
capability snapshot, and emit `existing-producers` only when the room already
has at least one producer. -/
def handleJoinRoom (s : SFU) (sockId roomId peerId : String) : SFU × List Event :=
  let roomAndState :=
    match mapGet s.rooms roomId with
    | some r => (r, s)
    | none =>
        let (rh, s1) := fresh s
        let room : Room := {router := rh}
        (room, {s1 with rooms := mapSet s1.rooms roomId room})
  let room := roomAndState.1
  let s1 := roomAndState.2
  let (po, s2) := fresh s1
  let peerO : PeerObj := {pid := peerId, sockId := sockId}
  let room' := {room with peers := mapSet room.peers peerId po}
  let s3 := {s2 with
    rooms := mapSet s2.rooms roomId room',
    peerObjs := mapSet s2.peerObjs po peerO,
    peers := mapSet s2.peers sockId po,
    sockets := mapSet s2.sockets sockId {roomId := some roomId, peerId := some peerId}}
  let producerIds := room.producers
  let evs := [Event.routerRtpCaps sockId room.router] ++
    (if producerIds.length > 0 then [Event.existingProducers sockId producerIds] else [])
  (s3, evs)

/-- The room the socket currently points at: `this.rooms.get(socket.roomId)`. -/
def roomOfSocket (s : SFU) (sockId : String) : Option Room :=
  ((mapGet s.sockets sockId).bind SocketData.roomId).bind (mapGet s.rooms)

/-- The room id the socket currently points at (`socket.roomId`). -/
def roomIdOfSocket (s : SFU) (sockId : String) : Option String :=
  (mapGet s.sockets sockId).bind SocketData.roomId

/-- Handler `handleCreateWebRTCTransport(socket, { direction })`: require peer and
room, create a transport on the room's router, register it on the peer, emit
`webrtc-transport-created`; on any failure emit a generic error event. -/
def handleCreateWebRTCTransport (s : SFU) (sockId : String) : SFU × List Event :=
  let err := (s, [Event.errorMsg sockId "Failed to create transport"])
  match mapGet s.peers sockId with
  | none => err
  | some poId =>
      match mapGet s.peerObjs poId with
      | none => err
      | some peerO =>
          match roomOfSocket s sockId with
          | none => err
          | some _room =>
              let (t, s1) := fresh s
              let peerO' := {peerO with transports := peerO.transports ++ [t]}
              ({s1 with peerObjs := mapSet s1.peerObjs poId peerO'},
               [Event.webrtcTransportCreated sockId t])

/-- Handler `handleProduce(socket, { transportId, kind, rtpParameters })`: require
peer, room and the transport on the peer; create a producer, register it on
the peer and on the room, broadcast `new-producer` to the other room peers,
then emit `producer-created`; on any failure emit a generic error event. -/
def handleProduce (s : SFU) (sockId : String) (transportId : Nat) : SFU × List Event :=
  let err := (s, [Event.errorMsg sockId "Failed to create producer"])
  match mapGet s.peers sockId with
  | none => err
  | some poId =>
      match mapGet s.peerObjs poId with
      | none => err
      | some peerO =>
          match roomIdOfSocket s sockId with
          | none => err
          | some roomId =>
              match mapGet s.rooms roomId with
              | none => err
              | some room =>
                  if transportId ∈ peerO.transports then
                    let (pid, s1) := fresh s
                    let peerO' := {peerO with producers := peerO.producers ++ [pid]}
                    let room' := {room with producers := room.producers ++ [pid]}
                    ({s1 with
                        peerObjs := mapSet s1.peerObjs poId peerO',
                        rooms := mapSet s1.rooms roomId room'},
                     [Event.newProducer roomId sockId pid peerO.pid,
                      Event.producerCreated sockId pid])
                  else err

/-- Handler `handleConsume(socket, { transportId, producerId, rtpCapabilities })`:
require peer and room; require the transport on the peer and the producer in
the room; ask the router's capability check (`canConsume`, passed in as the
external engine's verdict); on success create a consumer (started paused) and
register it on the peer; on any failure emit a generic error event. -/
def handleConsume (s : SFU) (sockId : String) (transportId producerId : Nat)
    (canConsume : Bool) : SFU × List Event :=
  let err := (s, [Event.errorMsg sockId "Failed to create consumer"])
  match mapGet s.peers sockId with
  | none => err
  | some poId =>
      match mapGet s.peerObjs poId with
      | none => err
      | some peerO =>
          match roomOfSocket s sockId with
          | none => err
          | some room =>
              if transportId ∈ peerO.transports ∧ producerId ∈ room.producers then
                if canConsume then
                  let (cid, s1) := fresh s
                  let peerO' := {peerO with consumers := peerO.consumers ++ [cid]}
                  ({s1 with peerObjs := mapSet s1.peerObjs poId peerO'},
                   [Event.consumerCreated sockId cid producerId])
                else err
              else err

/-- Handler `handleDisconnect(socket)`: if no peer is registered for the socket id,
return immediately.  Otherwise close the peer's transports, remove and close
its producers from the room, close its consumers, remove the peer from the
room, and if the room's peer map became empty close the router and delete the
room; finally remove the socket's entry from `this.peers`. -/
def handleDisconnect (s : SFU) (sockId : String) : SFU :=
  match mapGet s.peers sockId with
  | none => s
  | some poId =>
      match mapGet s.peerObjs poId with
      | none => {s with peers := mapDelete s.peers sockId}
      | some peerO =>
          let s1 :=
            match roomIdOfSocket s sockId with
            | none => s
            | some roomId =>
                match mapGet s.rooms roomId with
                | none => s
                | some room =>
                    let s2 := {s with
                      closedTransports := s.closedTransports ++ peerO.transports,
                      closedProducers := s.closedProducers ++ peerO.producers,
                      closedConsumers := s.closedConsumers ++ peerO.consumers}
                    let room' := {room with
                      producers := room.producers.filter (fun p => p ∉ peerO.producers),
                      peers := mapDelete room.peers peerO.pid}
                    if room'.peers = [] then
                      {s2 with
                        rooms := mapDelete s2.rooms roomId,
                        closedRouters := s2.closedRouters ++ [room.router]}
                    else
                      {s2 with rooms := mapSet s2.rooms roomId room'}
          {s1 with peers := mapDelete s1.peers sockId}

/-! ### Operation sequences over the signaling handlers -/

/-- A signaling-driven operation on the registry (the claims about room
lifecycle quantify over join/disconnect sequences). -/
inductive Op where
  | join (sockId roomId peerId : String)
  | disconnect (sockId : String)

/-- Apply one operation to the registry state. -/
def applyOp (s : SFU) : Op → SFU
  | .join sockId roomId peerId => (handleJoinRoom s sockId roomId peerId).1
  | .disconnect sockId => handleDisconnect s sockId

/-- Run a sequence of operations from the empty registry. -/
def runOps (ops : List Op) : SFU := ops.foldl applyOp initSFU

/-! ### Camera ingest bridge (`RTSPBridge`, src/rtsp-bridge.js) -/

/-- JS `(i + 1).toString().padStart(2, '0')`. -/
def padStart2 (str : String) : String := if str.length < 2 then "0" ++ str else str

/-- Camera naming from `RTSPBridge.start`: `cam${(i + 1).toString().padStart(2, '0')}`
for the 0-based list position `i`. -/
def cameraIdFor (i : Nat) : String := "cam" ++ padStart2 (toString (i + 1))

/-- Decimal value of a digit character. -/
def digitVal (c : Char) : Nat := c.toNat - 48

/-- JS `parseInt` on a digit string: consume leading decimal digits. -/
def parseDigits : List Char → Nat → Nat
  | [], acc => acc
  | c :: r, acc => if c.isDigit then parseDigits r (acc * 10 + digitVal c) else acc

/-- JS `parseInt(cameraId.replace('cam', ''))` on the generated ids: strip
the three-character `cam` prefix and parse the remaining decimal digits. -/
def parseCamIndex (cid : String) : Nat := parseDigits (cid.data.drop 3) 0

/-- Video SSRC from `startRTSPStream`: `11111111 + parseInt(cameraId.replace('cam', ''))`. -/
def videoSsrc (cid : String) : Nat := 11111111 + parseCamIndex cid

/-- Audio SSRC from `startRTSPStream`: `22222222 + parseInt(cameraId.replace('cam', ''))`. -/
def audioSsrc (cid : String) : Nat := 22222222 + parseCamIndex cid

/-- The successful pass of `RTSPBridge.startRTSPStream` (probe available,
ffmpeg started, producer creation succeeds): ensure the per-camera state
object exists in `this.routers`, create the two plain transports on the
bridge's own `mainRouter`, register the ffmpeg subprocess, create the video
and audio producers and store them under `camNN_video` / `camNN_audio` in the
bridge's `this.producers` map and on the camera state object.  The function
touches no signaling room and emits no socket event (the returned event list
is what the code sends to sockets: nothing). -/
def startRTSPStreamProduce (s : SFU) (camId : String) : SFU × List Event :=
  let s0 :=
    if (mapGet s.bridge.routers camId).isSome then s
    else {s with bridge := {s.bridge with routers := mapSet s.bridge.routers camId {}}}
  let st0 := (mapGet s0.bridge.routers camId).getD {}
  let (vt, s1) := fresh s0
  let (at0, s2) := fresh s1
  let st1 := {st0 with videoTransport := some vt, audioTransport := some at0}
  let (ff, s3) := fresh s2
  let s4 := {s3 with bridge := {s3.bridge with
    ffmpegProcesses := mapSet s3.bridge.ffmpegProcesses camId ff}}
  let st2 := {st1 with ffmpegProc := some ff}
  let (vp, s5) := fresh s4
  let (ap, s6) := fresh s5
  let st3 := {st2 with videoProducer := some vp, audioProducer := some ap}
  let s7 := {s6 with bridge := {s6.bridge with
    producers := mapSet (mapSet s6.bridge.producers (camId ++ "_video") vp)
      (camId ++ "_audio") ap,
    routers := mapSet s6.bridge.routers camId st3}}
  (s7, [])

/-- The ffmpeg `'close'` handler installed in `RTSPBridge.startFFmpegProcess`:
drop the subprocess from `ffmpegProcesses`; close and remove the attempt's
video/audio producers (also deleting their `camNN_video` / `camNN_audio`
entries) and close its transports, nulling the state fields; then, if the
bridge is still running, replace any pending retry timer (clearing the old
interval first) with a fresh one and store the state object back.  When the
bridge is not running the mutations still persist through object aliasing
whenever the state object was already in `this.routers`. -/
def ffmpegCloseHandler (s : SFU) (camId : String) : SFU :=
  let sA := {s with bridge := {s.bridge with
    ffmpegProcesses := mapDelete s.bridge.ffmpegProcesses camId}}
  let present := (mapGet sA.bridge.routers camId).isSome
  let st0 := (mapGet sA.bridge.routers camId).getD {}
  let step1 :=
    match st0.videoProducer with
    | some vp =>
        ({sA with
            closedProducers := sA.closedProducers ++ [vp],
            bridge := {sA.bridge with
              producers := mapDelete sA.bridge.producers (camId ++ "_video")}},
         {st0 with videoProducer := none})
    | none => (sA, st0)
  let sB := step1.1
  let st1 := step1.2
  let step2 :=
    match st1.audioProducer with
    | some ap =>
        ({sB with
            closedProducers := sB.closedProducers ++ [ap],
            bridge := {sB.bridge with
              producers := mapDelete sB.bridge.producers (camId ++ "_audio")}},
         {st1 with audioProducer := none})
    | none => (sB, st1)
  let sC := step2.1
  let st2 := step2.2
  let sD :=
    match st2.videoTransport with
    | some t => {sC with closedTransports := sC.closedTransports ++ [t]}
    | none => sC
  let sE :=
    match st2.audioTransport with
    | some t => {sD with closedTransports := sD.closedTransports ++ [t]}
    | none => sD
  let st3 := {st2 with videoTransport := none, audioTransport := none}
  if sE.bridge.isRunning then
    let step3 :=
      match st3.retryTimer with
      | some t => ({sE with clearedTimers := sE.clearedTimers ++ [t]}, st3)
      | none => (sE, st3)
    let sF := step3.1
    let st4 := step3.2
    let (tm, sG) := fresh sF
    let st5 := {st4 with retryTimer := some tm}
    {sG with bridge := {sG.bridge with routers := mapSet sG.bridge.routers camId st5}}
  else
    if present then
      {sE with bridge := {sE.bridge with routers := mapSet sE.bridge.routers camId st3}}
    else sE

/-- Shutdown `RTSPBridge.stop`: set `isRunning` to false, send SIGTERM to every
tracked ffmpeg subprocess, close every producer in the bridge's producer map,
close the main router, then clear the `ffmpegProcesses` and `producers`
maps.  The per-camera state objects in `this.routers` (and any pending retry
timers they hold) are not touched. -/
def bridgeStop (s : SFU) : SFU :=
  let s1 := {s with bridge := {s.bridge with isRunning := false}}
  let s2 := {s1 with killedSignals :=
    s1.killedSignals ++ s1.bridge.ffmpegProcesses.map (fun pr : String × Nat => (pr.2, "SIGTERM"))}
  let s3 := {s2 with closedProducers :=
    s2.closedProducers ++ s2.bridge.producers.map (fun pr : String × Nat => pr.2)}
  let s4 :=
    match s3.bridge.mainRouter with
    | some r => {s3 with closedRouters := s3.closedRouters ++ [r]}
    | none => s3
  {s4 with bridge := {s4.bridge with ffmpegProcesses := [], producers := []}}

/-! ### Stream-availability probe (`RTSPBridge.checkStreamAvailable`) -/

/-- Which settling event of the probe promise happens first.  `closeFirst`
carries whether an `'error'` event fired before the close, the exit code
(`none` models a null code), and the accumulated stdout. -/
inductive ProbeOutcome where
  | syncException
  | timeoutFirst
  | closeFirst (errored : Bool) (code : Option Int) (output : String)

/-- How the probe promise settles. -/
inductive ProbeResult where
  | resolved (b : Bool)
  | rejected
  deriving DecidableEq

/-- Whitespace for JS `String.prototype.trim`. -/
def isWsp (c : Char) : Bool := c = ' ' ∨ c = '\n' ∨ c = '\t' ∨ c = '\r'

/-- Length of the JS-trimmed string (`output.trim().length`). -/
def trimmedLen (str : String) : Nat :=
  ((str.data.dropWhile isWsp).reverse.dropWhile isWsp).length

/-- Probe `RTSPBridge.checkStreamAvailable`: a synchronous exception resolves
`false`; the 4-second safety timeout resolves `false`; on `'close'` the
result is `false` when an `'error'` event fired or the exit code is not 0,
`true` when the probe printed a codec name (non-empty trimmed stdout), and
`false` otherwise.  No path rejects. -/
def checkStreamAvailable : ProbeOutcome → ProbeResult
  | .syncException => .resolved false
  | .timeoutFirst => .resolved false
  | .closeFirst errored code output =>
      if errored = true ∨ code ≠ some 0 then .resolved false
      else if output ≠ "" ∧ 0 < trimmedLen output then .resolved true
      else .resolved false

/-! ### Shared concrete scenario states -/

/-- Empty registry after `join-room{"security","peer1"}` from socket `s1`. -/
def joined1 : SFU := (handleJoinRoom initSFU "s1" "security" "peer1").1

/-- The same peer after `create-webrtc-transport` (transport handle 2). -/
def withTransport : SFU := (handleCreateWebRTCTransport joined1 "s1").1

/-- The same peer after `produce` on transport 2 (producer handle 3). -/
def withProducer : SFU := (handleProduce withTransport "s1" 2).1

/-! ### Claim C1 -/

/-- C1 (counterexample): joining `security` on the empty registry emits only
the router capability snapshot; no `existing-producers` event (in particular
not one with an empty producer-id list) is part of the response, because the
handler emits it only when the list is non-empty. -/
theorem joinRoom_empty_registry_counterexample :
    (handleJoinRoom initSFU "s1" "security" "peer1").2 = [Event.routerRtpCaps "s1" 0] ∧
    Event.existingProducers "s1" [] ∉ (handleJoinRoom initSFU "s1" "security" "peer1").2 := by
  decide

/-- C1 (amended): a join-room on an empty registry responds with exactly the
router capability snapshot and no `existing-producers` event (the event is
only sent when the producer list is non-empty); a join-room into a room that
already holds exactly one producer responds with the capability snapshot
followed by an `existing-producers` event listing exactly that producer's
id. -/
theorem joinRoom_response_events (s : SFU) (sockId roomId peerId : String) :
    (s.rooms = [] →
      (handleJoinRoom s sockId roomId peerId).2 = [Event.routerRtpCaps sockId s.nextId]) ∧
    (∀ room p, mapGet s.rooms roomId = some room → room.producers = [p] →
      (handleJoinRoom s sockId roomId peerId).2 =
        [Event.routerRtpCaps sockId room.router, Event.existingProducers sockId [p]]) := by
  constructor
  · intro hempty
    simp [handleJoinRoom, fresh, hempty, mapGet]
  · intro room p hroom hprod
    simp [handleJoinRoom, fresh, hroom, hprod]

/-- C1 (witness for the amended theorem). -/
theorem joinRoom_response_events_witness :
    (handleJoinRoom initSFU "s1" "security" "peer1").2 = [Event.routerRtpCaps "s1" 0] ∧
    (handleJoinRoom withProducer "s2" "security" "peer2").2 =
      [Event.routerRtpCaps "s2" 0, Event.existingProducers "s2" [3]] := by
  refine ⟨(joinRoom_response_events initSFU "s1" "security" "peer1").1 (by decide), ?_⟩
  exact (joinRoom_response_events withProducer "s2" "security" "peer2").2
    {router := 0, peers := [("peer1", 1)], producers := [3]} 3 (by decide) (by decide)

/-! ### Claim C2 -/

/-- C2 (code evaluated at the failing input): peer1 has joined room
`security` and produced producer 3; the camera ingest pass for `cam01`
completes its Producing step, creating producers 7 (video) and 8 (audio).
Those producers land only in the bridge's own `producers` map: the room's
producer map still holds only [3], the bridge step emits no socket event (so
no `new-producer` notification reaches the already-joined peer), and a
subsequently joining peer2 is told `existing-producers: [3]`, which does not
include the camera producers. -/
theorem camera_producers_invisible_to_room_peers :
    mapGet (startRTSPStreamProduce withProducer "cam01").1.bridge.producers "cam01_video" =
      some 7 ∧
    mapGet (startRTSPStreamProduce withProducer "cam01").1.bridge.producers "cam01_audio" =
      some 8 ∧
    (startRTSPStreamProduce withProducer "cam01").2 = [] ∧
    (mapGet (startRTSPStreamProduce withProducer "cam01").1.rooms "security").map
      Room.producers = some [3] ∧
    (handleJoinRoom (startRTSPStreamProduce withProducer "cam01").1 "s2" "security" "peer2").2 =
      [Event.routerRtpCaps "s2" 0, Event.existingProducers "s2" [3]] := by
  decide

/-! ### Claim C5 -/

/-- C5: a consume request naming a producer id absent from the requesting
peer's room fails with the error event (the not-found taxonomy case), leaves
the whole registry state unchanged — in particular no consumer is created or
added to any peer's consumer map — and does not close the channel. -/
theorem consume_absent_producer_fails (s : SFU) (sockId : String)
    (transportId producerId : Nat) (canConsume : Bool) (poId : Nat) (peerO : PeerObj)
    (room : Room)
    (h1 : mapGet s.peers sockId = some poId)
    (h2 : mapGet s.peerObjs poId = some peerO)
    (h3 : roomOfSocket s sockId = some room)
    (h5 : producerId ∉ room.producers) :
    handleConsume s sockId transportId producerId canConsume =
      (s, [Event.errorMsg sockId "Failed to create consumer"]) := by
  unfold handleConsume
  simp only [h1, h2, h3]
  rw [if_neg (fun hc => h5 hc.2)]

/-- C5 (witness): consuming unknown producer 99 in the joined scenario
returns the error event and the unchanged state. -/
theorem consume_absent_producer_fails_witness :
    handleConsume joined1 "s1" 2 99 true =
      (joined1, [Event.errorMsg "s1" "Failed to create consumer"]) := by
  exact consume_absent_producer_fails joined1 "s1" 2 99 true 1
    {pid := "peer1", sockId := "s1"} {router := 0, peers := [("peer1", 1)]}
    (by decide) (by decide) (by decide) (by decide)

/-! ### Claim C10 -/

/-- C10: a disconnect from a socket that never completed a join (no peer is
registered under its socket id) leaves the whole state — rooms, peers and
every close log — exactly unchanged. -/
theorem disconnect_unknown_socket_noop (s : SFU) (sockId : String)
    (h : mapGet s.peers sockId = none) :
    handleDisconnect s sockId = s := by
  unfold handleDisconnect
  rw [h]

/-- C10 (witness). -/
theorem disconnect_unknown_socket_noop_witness :
    handleDisconnect joined1 "neverJoined" = joined1 := by
  exact disconnect_unknown_socket_noop joined1 "neverJoined" (by decide)

/-! ### Claim C6 -/

/-- C6 (counterexample): peer1 joined room `security` from socket `s1` and
created transport 2; repeating the same `join-room{"security","peer1"}` does
not leave the registry unchanged: the peer registered for `s1` afterwards has
an empty transport map, where before the re-join it owned transport 2. -/
theorem rejoin_counterexample :
    (handleJoinRoom withTransport "s1" "security" "peer1").1 ≠ withTransport ∧
    ((mapGet withTransport.peers "s1").bind (mapGet withTransport.peerObjs)).map
      PeerObj.transports = some [2] ∧
    ((mapGet (handleJoinRoom withTransport "s1" "security" "peer1").1.peers "s1").bind
      (mapGet (handleJoinRoom withTransport "s1" "security" "peer1").1.peerObjs)).map
      PeerObj.transports = some [] := by
  decide

/-- C6 (amended): a second join-room with the same roomId and peerId is not a
no-op on the peer: it installs a fresh peer object with empty transport,
producer and consumer maps under that peerId and socket id (orphaning the
previous peer object's resources), while the rooms map keys and the room's
producer list are preserved. -/
theorem rejoin_replaces_peer_with_fresh_state (s : SFU) (sockId roomId peerId : String)
    (room : Room) (h : mapGet s.rooms roomId = some room) :
    mapGet (handleJoinRoom s sockId roomId peerId).1.rooms roomId =
      some {room with peers := mapSet room.peers peerId s.nextId} ∧
    mapGet (handleJoinRoom s sockId roomId peerId).1.peerObjs s.nextId =
      some {pid := peerId, sockId := sockId} ∧
    mapGet (handleJoinRoom s sockId roomId peerId).1.peers sockId = some s.nextId ∧
    (∀ rid, rid ≠ roomId →
      mapGet (handleJoinRoom s sockId roomId peerId).1.rooms rid = mapGet s.rooms rid) := by
  refine ⟨?_, ?_, ?_, ?_⟩
  · simp [handleJoinRoom, fresh, h, mapGet_mapSet_self]
  · simp [handleJoinRoom, fresh, h, mapGet_mapSet_self]
  · simp [handleJoinRoom, fresh, h, mapGet_mapSet_self]
  · intro rid hne
    simp [handleJoinRoom, fresh, h, mapGet_mapSet_ne _ _ _ _ hne]

/-- C6 (witness for the amended theorem). -/
theorem rejoin_replaces_peer_with_fresh_state_witness :
    mapGet (handleJoinRoom withTransport "s1" "security" "peer1").1.rooms "security" =
      some {router := 0, peers := [("peer1", 3)], producers := []} ∧
    mapGet (handleJoinRoom withTransport "s1" "security" "peer1").1.peerObjs 3 =
      some {pid := "peer1", sockId := "s1"} := by
  have h := rejoin_replaces_peer_with_fresh_state withTransport "s1" "security" "peer1"
    {router := 0, peers := [("peer1", 1)]} (by decide)
  exact ⟨h.1, h.2.1⟩

/-! ### Claim C7 -/

/-- Concrete bridge state with a pending retry timer (handle 5) for `cam01`
and a live subprocess (handle 7). -/
def pendingRetryState : SFU :=
  {bridge := {isRunning := true, mainRouter := some 0,
              ffmpegProcesses := [("cam01", 7)],
              routers := [("cam01", {retryTimer := some 5})]},
   nextId := 8}

/-- C7 (counterexample): stopping the bridge with a pending retry timer does
not cancel it — the per-camera state still holds timer 5 and nothing was
cleared — and the subprocess only ever receives SIGTERM; no force-kill signal
is issued at any point. -/
theorem bridgeStop_counterexample :
    ((mapGet (bridgeStop pendingRetryState).bridge.routers "cam01").getD {}).retryTimer =
      some 5 ∧
    (bridgeStop pendingRetryState).clearedTimers = [] ∧
    (7, "SIGTERM") ∈ (bridgeStop pendingRetryState).killedSignals ∧
    (7, "SIGKILL") ∉ (bridgeStop pendingRetryState).killedSignals := by
  decide

/-- Closed form of `bridgeStop` for arbitrary states. -/
theorem bridgeStop_eq (s : SFU) :
    bridgeStop s =
      {s with
        bridge := {s.bridge with isRunning := false, ffmpegProcesses := [], producers := []},
        killedSignals := s.killedSignals ++
          s.bridge.ffmpegProcesses.map (fun pr : String × Nat => (pr.2, "SIGTERM")),
        closedProducers := s.closedProducers ++
          s.bridge.producers.map (fun pr : String × Nat => pr.2),
        closedRouters := s.closedRouters ++ s.bridge.mainRouter.toList} := by
  unfold bridgeStop
  cases hr : s.bridge.mainRouter <;> simp [hr, Option.toList]

/-- C7 (amended): on stop the bridge clears its running flag, sends exactly
one graceful SIGTERM to every tracked subprocess (never a forced kill),
closes every producer in its producer map, closes the main router, and clears
the subprocess and producer maps; pending retry timers are not cancelled (the
per-camera states and the cleared-timer log are untouched) — their callbacks
merely become no-ops because the running flag is false. -/
theorem bridgeStop_behavior (s : SFU) :
    (bridgeStop s).bridge.isRunning = false ∧
    (∀ cid p, (cid, p) ∈ s.bridge.ffmpegProcesses →
      (p, "SIGTERM") ∈ (bridgeStop s).killedSignals) ∧
    (∀ key p, (key, p) ∈ s.bridge.producers → p ∈ (bridgeStop s).closedProducers) ∧
    (∀ r, s.bridge.mainRouter = some r → r ∈ (bridgeStop s).closedRouters) ∧
    (bridgeStop s).bridge.ffmpegProcesses = [] ∧
    (bridgeStop s).bridge.producers = [] ∧
    (bridgeStop s).bridge.routers = s.bridge.routers ∧
    (bridgeStop s).clearedTimers = s.clearedTimers ∧
    (∀ p sig, (p, sig) ∈ (bridgeStop s).killedSignals →
      (p, sig) ∈ s.killedSignals ∨ sig = "SIGTERM") := by
  rw [bridgeStop_eq]
  refine ⟨rfl, ?_, ?_, ?_, rfl, rfl, rfl, rfl, ?_⟩
  · intro cid p h
    exact List.mem_append_right _ (List.mem_map.mpr ⟨(cid, p), h, rfl⟩)
  · intro key p h
    exact List.mem_append_right _ (List.mem_map.mpr ⟨(key, p), h, rfl⟩)
  · intro r hr
    simp [hr, Option.toList]
  · intro p sig h
    rcases List.mem_append.mp h with h | h
    · exact Or.inl h
    · obtain ⟨⟨a, b⟩, _, heq⟩ := List.mem_map.mp h
      cases heq
      exact Or.inr rfl

/-- C7 (witness for the amended theorem). -/
theorem bridgeStop_behavior_witness :
    (bridgeStop pendingRetryState).bridge.isRunning = false ∧
    (7, "SIGTERM") ∈ (bridgeStop pendingRetryState).killedSignals ∧
    0 ∈ (bridgeStop pendingRetryState).closedRouters := by
  refine ⟨(bridgeStop_behavior pendingRetryState).1, ?_, ?_⟩
  · exact (bridgeStop_behavior pendingRetryState).2.1 "cam01" 7 (by decide)
  · exact (bridgeStop_behavior pendingRetryState).2.2.2.1 0 (by decide)

/-! ### Claim C9 -/

/-- C9: the stream-availability probe is total — every settling order of the
probe's events resolves to a boolean (no path rejects) — and it resolves
`false` on each failure mode: synchronous exception, the 4-second safety
timeout firing first, a spawn error (the `'error'` event before close), a
nonzero (or null) exit code, and empty probe output; it resolves `true`
exactly when the probe exits 0 with non-empty trimmed output. -/
theorem checkStreamAvailable_total :
    (∀ o, ∃ b, checkStreamAvailable o = .resolved b) ∧
    checkStreamAvailable .syncException = .resolved false ∧
    checkStreamAvailable .timeoutFirst = .resolved false ∧
    (∀ c out, checkStreamAvailable (.closeFirst true c out) = .resolved false) ∧
    (∀ c out, c ≠ some 0 → checkStreamAvailable (.closeFirst false c out) = .resolved false) ∧
    (∀ c, checkStreamAvailable (.closeFirst false c "") = .resolved false) ∧
    (∀ out, out ≠ "" → 0 < trimmedLen out →
      checkStreamAvailable (.closeFirst false (some 0) out) = .resolved true) := by
  refine ⟨?_, rfl, rfl, ?_, ?_, ?_, ?_⟩
  · intro o
    cases o with
    | syncException => exact ⟨false, rfl⟩
    | timeoutFirst => exact ⟨false, rfl⟩
    | closeFirst errored code output =>
        simp only [checkStreamAvailable]
        split
        · exact ⟨false, rfl⟩
        · split
          · exact ⟨true, rfl⟩
          · exact ⟨false, rfl⟩
  · intro c out
    simp [checkStreamAvailable]
  · intro c out hc
    simp [checkStreamAvailable, hc]
  · intro c
    by_cases hc : c = some 0 <;> simp [checkStreamAvailable, hc]
  · intro out h1 h2
    simp [checkStreamAvailable, h1, h2]

/-- C9 (witness): the nonzero-exit and success conjuncts at concrete
inputs. -/
theorem checkStreamAvailable_total_witness :
    checkStreamAvailable (.closeFirst false (some 1) "h264") = .resolved false ∧
    checkStreamAvailable (.closeFirst false (some 0) "h264\n") = .resolved true := by
  refine ⟨?_, ?_⟩
  · exact checkStreamAvailable_total.2.2.2.2.1 (some 1) "h264" (by decide)
  · exact checkStreamAvailable_total.2.2.2.2.2.2 "h264\n" (by decide) (by decide)

/-! ### Claim C8 -/

/-- C8: for any two configured cameras with distinct 1-based indices
`i, j` within the bridge's 6-camera cap, the synchronization-source ids are
the fixed per-kind base constants plus the camera index (11111111 for video,
22222222 for audio), and all four SSRC values are pairwise distinct, so
cameras sharing the bridge router never collide. -/
theorem camera_ssrc_distinct (i j : Nat) (hi1 : 1 ≤ i) (hi6 : i ≤ 6)
    (hj1 : 1 ≤ j) (hj6 : j ≤ 6) (hij : i ≠ j) :
    videoSsrc (cameraIdFor (i - 1)) = 11111111 + i ∧
    audioSsrc (cameraIdFor (i - 1)) = 22222222 + i ∧
    videoSsrc (cameraIdFor (i - 1)) ≠ videoSsrc (cameraIdFor (j - 1)) ∧
    audioSsrc (cameraIdFor (i - 1)) ≠ audioSsrc (cameraIdFor (j - 1)) ∧
    videoSsrc (cameraIdFor (i - 1)) ≠ audioSsrc (cameraIdFor (j - 1)) ∧
    videoSsrc (cameraIdFor (i - 1)) ≠ audioSsrc (cameraIdFor (i - 1)) := by
  interval_cases i <;> interval_cases j <;> revert hij <;> decide

/-- C8 (witness): cameras 1 and 2. -/
theorem camera_ssrc_distinct_witness :
    videoSsrc (cameraIdFor 0) = 11111112 ∧
    audioSsrc (cameraIdFor 0) = 22222223 ∧
    videoSsrc (cameraIdFor 0) ≠ videoSsrc (cameraIdFor 1) := by
  have h := camera_ssrc_distinct 1 2 (by decide) (by decide) (by decide) (by decide) (by decide)
  exact ⟨h.1, h.2.1, h.2.2.1⟩

/-! ### Claim C3 -/

/-- Invariant: every room present in the registry has at least one peer. -/
def roomsHavePeers (s : SFU) : Prop :=
  ∀ rid room, mapGet s.rooms rid = some room → room.peers ≠ []

theorem join_preserves_roomsHavePeers (s : SFU) (sockId roomId peerId : String)
    (h : roomsHavePeers s) : roomsHavePeers (handleJoinRoom s sockId roomId peerId).1 := by
  intro rid room hr
  by_cases hb : rid = roomId
  · subst hb
    rcases hmr : mapGet s.rooms rid with _ | r0 <;>
      simp [handleJoinRoom, fresh, hmr, mapGet_mapSet_self] at hr <;>
      simp [← hr, mapSet_ne_nil]
  · rcases hmr : mapGet s.rooms roomId with _ | r0 <;>
      simp [handleJoinRoom, fresh, hmr, mapGet_mapSet_ne _ _ _ _ hb] at hr
    · exact h rid room hr
    · exact h rid room hr

theorem disconnect_preserves_roomsHavePeers (s : SFU) (sockId : String)
    (h : roomsHavePeers s) : roomsHavePeers (handleDisconnect s sockId) := by
  intro rid room hr
  unfold handleDisconnect at hr
  rcases hp : mapGet s.peers sockId with _ | poId
  · simp only [hp] at hr
    exact h rid room hr
  rcases hpo : mapGet s.peerObjs poId with _ | peerO
  · simp only [hp, hpo] at hr
    exact h rid room hr
  rcases hrid : roomIdOfSocket s sockId with _ | roomId
  · simp only [hp, hpo, hrid] at hr
    exact h rid room hr
  rcases hroom : mapGet s.rooms roomId with _ | room0
  · simp only [hp, hpo, hrid, hroom] at hr
    exact h rid room hr
  simp only [hp, hpo, hrid, hroom] at hr
  by_cases hempty : mapDelete room0.peers peerO.pid = []
  · by_cases hb : rid = roomId
    · subst hb
      simp [hempty, mapGet_mapDelete_self] at hr
    · simp only [hempty, if_pos, if_true, eq_self_iff_true] at hr
      simp only [mapGet_mapDelete_ne _ _ _ hb] at hr
      exact h rid room hr
  · by_cases hb : rid = roomId
    · subst hb
      simp [hempty, mapGet_mapSet_self] at hr
      simp [← hr, hempty]
    · simp only [hempty, if_false, if_neg, not_false_iff] at hr
      simp only [mapGet_mapSet_ne _ _ _ _ hb] at hr
      exact h rid room hr

theorem foldl_preserves_roomsHavePeers (l : List Op) (s : SFU)
    (hs : roomsHavePeers s) : roomsHavePeers (l.foldl applyOp s) := by
  induction l generalizing s with
  | nil => exact hs
  | cons op r ih =>
      simp only [List.foldl]
      cases op with
      | join a b c => exact ih _ (join_preserves_roomsHavePeers s a b c hs)
      | disconnect a => exact ih _ (disconnect_preserves_roomsHavePeers s a hs)

/-- C3: (1) whenever a disconnect removes the last peer of the socket's room
(the peer map becomes empty after the deletion), the room's router is closed
and the room is removed from the registry; (2) after any sequence of join and
disconnect operations from the empty registry, every room present in the
registry has at least one peer — hence a room exists only while it has at
least one peer or one active ingest producer (the ingest bridge never places
producers in registry rooms, so the peer disjunct always witnesses the
invariant), and a room with neither peers nor ingest producers has been
destroyed. -/
theorem room_gc_on_last_disconnect :
    (∀ (s : SFU) (sockId : String) (poId : Nat) (peerO : PeerObj)
       (roomId : String) (room : Room),
       mapGet s.peers sockId = some poId →
       mapGet s.peerObjs poId = some peerO →
       roomIdOfSocket s sockId = some roomId →
       mapGet s.rooms roomId = some room →
       mapDelete room.peers peerO.pid = [] →
       mapGet (handleDisconnect s sockId).rooms roomId = none ∧
       room.router ∈ (handleDisconnect s sockId).closedRouters) ∧
    (∀ (ops : List Op) (rid : String) (room : Room),
       mapGet (runOps ops).rooms rid = some room → room.peers ≠ []) := by
  constructor
  · intro s sockId poId peerO roomId room h1 h2 h3 h4 h5
    unfold handleDisconnect
    simp only [h1, h2, h3, h4, h5]
    constructor
    · simp [h5, mapGet_mapDelete_self]
    · simp [h5]
  · intro ops rid room hr
    refine foldl_preserves_roomsHavePeers ops initSFU ?_ rid room hr
    intro rid' room' hr'
    simp [initSFU, mapGet] at hr'

/-- C3 (witness): in the one-peer scenario, disconnecting `s1` closes router
0 and removes room `security`. -/
theorem room_gc_on_last_disconnect_witness :
    mapGet (handleDisconnect joined1 "s1").rooms "security" = none ∧
    0 ∈ (handleDisconnect joined1 "s1").closedRouters := by
  have h := room_gc_on_last_disconnect.1 joined1 "s1" 1
    {pid := "peer1", sockId := "s1"} "security"
    {router := 0, peers := [("peer1", 1)]}
    (by decide) (by decide) (by decide) (by decide) (by decide)
  exact h

/-! ### Claim C4 -/

/-- Keys for the two producer entries of one camera are distinct. -/
theorem append_video_ne_audio (camId : String) : camId ++ "_video" ≠ camId ++ "_audio" := by
  intro h
  have h2 : "_video".data = "_audio".data :=
    List.append_cancel_left (congrArg String.data h)
  exact absurd h2 (by decide)

/-- C4: when the transcoding subprocess of a camera exits while the bridge
is running, the close handler (i) removes the subprocess entry, (ii) closes
and removes the exited attempt's video/audio producers — both from the
bridge producer map and from the camera state — and closes its transports,
and only then (iii) installs exactly one fresh retry timer, clearing any
previously pending retry timer rather than duplicating it.  Hence after the
handler runs no producer of that camera remains registered, so a later
attempt (the only producer creator) cannot coexist with unresolved cleanup.
The two hypotheses on the producer map state the bridge invariant that a
`camNN_video` / `camNN_audio` entry exists only while the camera state holds
that producer. -/
theorem ffmpegClose_single_retry_and_cleanup (s : SFU) (camId : String) (st0 : CamState)
    (hcam : mapGet s.bridge.routers camId = some st0)
    (hrun : s.bridge.isRunning = true)
    (hwfv : st0.videoProducer = none → mapGet s.bridge.producers (camId ++ "_video") = none)
    (hwfa : st0.audioProducer = none → mapGet s.bridge.producers (camId ++ "_audio") = none) :
    mapGet (ffmpegCloseHandler s camId).bridge.routers camId =
      some {st0 with videoProducer := none, audioProducer := none,
                     videoTransport := none, audioTransport := none,
                     retryTimer := some s.nextId} ∧
    (∀ t0, st0.retryTimer = some t0 → t0 ∈ (ffmpegCloseHandler s camId).clearedTimers) ∧
    mapGet (ffmpegCloseHandler s camId).bridge.producers (camId ++ "_video") = none ∧
    mapGet (ffmpegCloseHandler s camId).bridge.producers (camId ++ "_audio") = none ∧
    mapGet (ffmpegCloseHandler s camId).bridge.ffmpegProcesses camId = none ∧
    (∀ p, st0.videoProducer = some p → p ∈ (ffmpegCloseHandler s camId).closedProducers) ∧
    (∀ p, st0.audioProducer = some p → p ∈ (ffmpegCloseHandler s camId).closedProducers) ∧
    (∀ t, st0.videoTransport = some t → t ∈ (ffmpegCloseHandler s camId).closedTransports) ∧
    (∀ t, st0.audioTransport = some t → t ∈ (ffmpegCloseHandler s camId).closedTransports) := by
  rcases hv : st0.videoProducer with _ | vp <;>
    rcases ha : st0.audioProducer with _ | ap <;>
      rcases hvt : st0.videoTransport with _ | vt <;>
        rcases hat : st0.audioTransport with _ | at0 <;>
          rcases hrt : st0.retryTimer with _ | t0 <;>
            simp_all [ffmpegCloseHandler, fresh, mapGet_mapSet_self, mapGet_mapDelete_self,
              mapGet_mapDelete_ne _ _ _ (append_video_ne_audio camId),
              mapGet_mapDelete_ne _ _ _ (Ne.symm (append_video_ne_audio camId))]

/-- Running-bridge state right after the camera producing pass for `cam01`
(producers 7 and 8, transports 4 and 5, subprocess 6). -/
def camRunning : SFU :=
  let base := (startRTSPStreamProduce withProducer "cam01").1
  {base with bridge := {base.bridge with isRunning := true}}

/-- C4 (witness): the close handler for `cam01` on the running scenario
clears both producer entries, records producers 7 and 8 as closed, and
installs the fresh retry timer 9. -/
theorem ffmpegClose_single_retry_and_cleanup_witness :
    mapGet (ffmpegCloseHandler camRunning "cam01").bridge.routers "cam01" =
      some {retryTimer := some 9, ffmpegProc := some 6} ∧
    mapGet (ffmpegCloseHandler camRunning "cam01").bridge.producers "cam01_video" = none ∧
    7 ∈ (ffmpegCloseHandler camRunning "cam01").closedProducers := by
  have h := ffmpegClose_single_retry_and_cleanup camRunning "cam01"
    {videoTransport := some 4, audioTransport := some 5, ffmpegProc := some 6,
     videoProducer := some 7, audioProducer := some 8}
    (by decide) (by decide) (by decide) (by decide)
  exact ⟨h.1, h.2.2.1, h.2.2.2.2.2.1 7 (by decide)⟩

end ChocoMax
